import Mathlib

/-!
Verification of the TU Wien flood-mapping core as implemented in the
openEO flood mapper notebooks (local and remote pipelines).

The embedding follows `src/notebooks/1_yeoda_dc.qmd` (the local
pipeline), whose numeric core is repeated verbatim in the remote
pipeline notebook.  Per-pixel band math is modelled as functions over a
linear ordered field (instantiated at `ℚ` for decidable computations and
at `ℝ` where the code uses `exp`, `sin`, `cos`, `sqrt`, `π`).
-/

/-! ### Water backscatter model

Source: `water_backscatter(plia_dc)`, which computes
`plia_dc * -0.394181 + -4.142015` per pixel. -/

/-- Per-pixel water backscatter: `plia * -0.394181 + -4.142015`. -/
def water_backscatter {α : Type*} [LinearOrderedField α] (plia : α) : α :=
  plia * (-0.394181) + (-4.142015)

/-! ### Day-of-year

Source: `datetime.strptime(dtime_str, "%Y-%m-%d")` followed by
`dt.timetuple().tm_yday`, which is the Gregorian calendar ordinal day of
the year (1-based). -/

/-- Gregorian leap-year rule, as used by Python's `datetime`. -/
def isLeapYear (y : ℕ) : Bool :=
  (y % 4 == 0 && y % 100 != 0) || (y % 400 == 0)

/-- Number of days in month `m` (1–12) of year `y`. -/
def daysInMonth (y m : ℕ) : ℕ :=
  if m = 2 then (if isLeapYear y then 29 else 28)
  else if m = 4 ∨ m = 6 ∨ m = 9 ∨ m = 11 then 30
  else 31

/-- Calendar day-of-year (`tm_yday`) of the date `y-m-d`, 1-based. -/
def dayOfYear (y m d : ℕ) : ℕ :=
  (List.range (m - 1)).foldl (fun acc k => acc + daysInMonth y (k + 1)) 0 + d

/-! ### Harmonic expected land backscatter

Source: `harmonic_expected_backscatter(data, dtime_str)`:
`w = np.pi * 2 / 365`, `t = tm_yday`, `wt = w * t`, then
`hm_c1 = (M0 + S1*sin(wt)) + (C1*cos(wt))`,
`hm_c2 = ((hm_c1 + S2*sin(2*wt)) + C2*cos(2*wt))`,
`hm_c3 = ((hm_c2 + S3*sin(3*wt)) + C3*cos(3*wt))`. -/

/-- The seven per-pixel harmonic parameters (bands `M0,S1,S2,S3,C1,C2,C3`). -/
structure HParam where
  M0 : ℝ
  S1 : ℝ
  S2 : ℝ
  S3 : ℝ
  C1 : ℝ
  C2 : ℝ
  C3 : ℝ

/-- Angular frequency `w = np.pi * 2 / 365`. -/
noncomputable def w : ℝ := Real.pi * 2 / 365

/-- Body of the harmonic model at a day-of-year value `t`, with the
source's exact association: `hm_c3` built from `hm_c2` from `hm_c1`. -/
noncomputable def harmonic_model (p : HParam) (t : ℝ) : ℝ :=
  (((p.M0 + p.S1 * Real.sin (w * t)) + p.C1 * Real.cos (w * t))
      + p.S2 * Real.sin (2 * (w * t))) + p.C2 * Real.cos (2 * (w * t))
    + p.S3 * Real.sin (3 * (w * t)) + p.C3 * Real.cos (3 * (w * t))

/-- Function `harmonic_expected_backscatter` on the date `y-m-d`: the harmonic
model body evaluated at `t = tm_yday` of the parsed date. -/
noncomputable def harmonic_expected_backscatter (p : HParam) (y m d : ℕ) : ℝ :=
  harmonic_model p (dayOfYear y m d : ℝ)

/-! ### Bayesian flood decision

Source: `bayesian_flood_decision(x)` with `nf_std = 2.754041`,
`f_prob  = (1.0 / (std * np.sqrt(2*np.pi))) * np.exp(-0.5*(((sig0 - wbsc)/nf_std)**2))`,
`nf_prob = (1.0 / (nf_std * np.sqrt(2*np.pi))) * np.exp(-0.5*(((sig0 - hbsc)/nf_std)**2))`,
`evidence = (nf_prob*0.5) + (f_prob*0.5)`,
`f_post_prob = (f_prob*0.5)/evidence`, `nf_post_prob = (nf_prob*0.5)/evidence`,
returning `f_post_prob.gt(nf_post_prob)`. -/

/-- The global scale constant `nf_std = 2.754041`. -/
noncomputable def nf_std : ℝ := 2.754041

/-- Source expression `f_prob`, exactly as written: per-pixel `std` in the prefactor,
the global `nf_std` as the scale inside the exponent. -/
noncomputable def f_prob (sig0 std wbsc : ℝ) : ℝ :=
  (1.0 / (std * Real.sqrt (2 * Real.pi)))
    * Real.exp (-0.5 * (((sig0 - wbsc) / nf_std) ^ 2))

/-- Source expression `nf_prob`, exactly as written: the global `nf_std` both in the
prefactor and as the scale inside the exponent. -/
noncomputable def nf_prob (sig0 hbsc : ℝ) : ℝ :=
  (1.0 / (nf_std * Real.sqrt (2 * Real.pi)))
    * Real.exp (-0.5 * (((sig0 - hbsc) / nf_std) ^ 2))

/-- Source expression `evidence = (nf_prob * 0.5) + (f_prob * 0.5)`. -/
noncomputable def evidence (sig0 std wbsc hbsc : ℝ) : ℝ :=
  nf_prob sig0 hbsc * 0.5 + f_prob sig0 std wbsc * 0.5

/-- Source expression `f_post_prob = (f_prob * 0.5) / evidence`. -/
noncomputable def f_post_prob (sig0 std wbsc hbsc : ℝ) : ℝ :=
  f_prob sig0 std wbsc * 0.5 / evidence sig0 std wbsc hbsc

/-- Source expression `nf_post_prob = (nf_prob * 0.5) / evidence`. -/
noncomputable def nf_post_prob (sig0 std wbsc hbsc : ℝ) : ℝ :=
  nf_prob sig0 hbsc * 0.5 / evidence sig0 std wbsc hbsc

/-- The returned decision `f_post_prob.gt(nf_post_prob)`. -/
def bayesian_flood_decision (sig0 std wbsc hbsc : ℝ) : Prop :=
  f_post_prob sig0 std wbsc hbsc > nf_post_prob sig0 std wbsc hbsc

/-- Spec-side definition (for the refinement claims about the class
likelihoods): the normal probability density with mean `μ` and standard
deviation `σ`, evaluated at `x`. -/
noncomputable def normalPdf (μ σ x : ℝ) : ℝ :=
  (1 / (σ * Real.sqrt (2 * Real.pi))) * Real.exp (-0.5 * (((x - μ) / σ) ^ 2))

/-! ### Post-classification mask cascade

Source: the four masking cells of the local notebook.  The merged cube
`flood_dc` holds bands `dec, sig0, std, wbsc, hbsc, PLIA`; each masking
cell multiplies the whole cube elementwise by a boolean mask
(`flood_dc = flood_dc * mask`), booleans coercing to 0/1. -/

/-- One pixel of the merged `flood_dc` cube: bands
`dec, sig0, std, wbsc, hbsc, PLIA`. -/
structure Pix (α : Type*) where
  dec : α
  sig0 : α
  std : α
  wbsc : α
  hbsc : α
  plia : α
  deriving DecidableEq

variable {α : Type*} [LinearOrderedField α]

/-- Numpy's coercion of a boolean into band math: `True ↦ 1`, `False ↦ 0`. -/
def boolToNum (b : Bool) : α := if b then 1 else 0

/-- Elementwise multiplication of every band of a pixel by a scalar,
modelling `flood_dc * mask`. -/
def mulPix (p : Pix α) (x : α) : Pix α :=
  ⟨p.dec * x, p.sig0 * x, p.std * x, p.wbsc * x, p.hbsc * x, p.plia * x⟩

/-- Incidence-angle mask: `(PLIA >= 27) * (PLIA <= 48)`. -/
def mask_ia (p : Pix α) : Bool :=
  decide (p.plia ≥ 27) && decide (p.plia ≤ 48)

/-- Source expression `water_bsc_threshold = wbsc + 0.5 * 2.754041`. -/
def water_bsc_threshold (p : Pix α) : α := p.wbsc + 0.5 * 2.754041

/-- Conflict mask: `hbsc > water_bsc_threshold`. -/
def mask_conflict (p : Pix α) : Bool :=
  decide (p.hbsc > water_bsc_threshold p)

/-- Source expression `land_bsc_lower = hbsc - 3 * std`. -/
def land_bsc_lower (p : Pix α) : α := p.hbsc - 3 * p.std

/-- Source expression `land_bsc_upper = hbsc + 3 * std`. -/
def land_bsc_upper (p : Pix α) : α := p.hbsc + 3 * p.std

/-- Source expression `water_bsc_upper = wbsc + 3 * 2.754041`. -/
def water_bsc_upper (p : Pix α) : α := p.wbsc + 3 * 2.754041

/-- Source expression `mask_land_outliers = (sig0 > land_bsc_lower) * (sig0 < land_bsc_upper)`. -/
def mask_land_outliers (p : Pix α) : Bool :=
  decide (p.sig0 > land_bsc_lower p) && decide (p.sig0 < land_bsc_upper p)

/-- Source expression `mask_water_outliers = sig0 < water_bsc_upper`. -/
def mask_water_outliers (p : Pix α) : Bool :=
  decide (p.sig0 < water_bsc_upper p)

/-- The combined outlier mask `mask_land_outliers | mask_water_outliers`. -/
def mask_outliers (p : Pix α) : Bool :=
  mask_land_outliers p || mask_water_outliers p

/-- Decision-confidence mask: `dec > 0.8`. -/
def mask_uncertainty (p : Pix α) : Bool :=
  decide (p.dec > 0.8)

/-- One masking step `flood_dc * mask`, where the mask is evaluated on the cube it is
multiplied into (as the outlier and confidence cells do). -/
def applyMask (p : Pix α) (m : Pix α → Bool) : Pix α :=
  mulPix p (boolToNum (m p))

/-- State of `flood_dc` after the incidence-angle cell: the mask reads
`flood_dc.band("PLIA")` of the not-yet-masked cube. -/
def flood_dc1 (p : Pix α) : Pix α := applyMask p mask_ia

/-- State of `flood_dc` after the conflict cell: in the local notebook the mask
reads `decision_in` (the pristine pre-mask bands `wbsc`, `hbsc`), so it
is evaluated at `p`, not at `flood_dc1 p`. -/
def flood_dc2 (p : Pix α) : Pix α :=
  mulPix (flood_dc1 p) (boolToNum (mask_conflict p))

/-- State of `flood_dc` after the outlier cell: the mask reads
`flood_dc.band(...)` of the already twice-masked cube. -/
def flood_dc3 (p : Pix α) : Pix α := applyMask (flood_dc2 p) mask_outliers

/-- State of `flood_dc` after the decision-confidence cell: the mask reads
`flood_dc.band("dec")` of the already thrice-masked cube. -/
def flood_dc4 (p : Pix α) : Pix α := applyMask (flood_dc3 p) mask_uncertainty

/-! ### Spatial median smoothing

Source: `flood_dc.apply_neighborhood("median", dict(x=-1, y=-1), dict(x=2, y=2))`:
each pixel is replaced by the median of its 3×3 neighborhood.  The grid
is modelled as `ℤ → ℤ → α` (interior behavior; the source leaves the
boundary policy unspecified). -/

/-- Insert a value into a sorted list, keeping it sorted. -/
def insertSorted (x : α) : List α → List α
  | [] => [x]
  | y :: ys => if x ≤ y then x :: y :: ys else y :: insertSorted x ys

/-- Insertion sort. -/
def sortList : List α → List α
  | [] => []
  | x :: xs => insertSorted x (sortList xs)

/-- Median of a 9-element window: the 5th smallest value. -/
def medianOfWindow (l : List α) : α := (sortList l).getD 4 0

/-- The 3×3 window of values centered at `(i, j)`. -/
def window3x3 (r : ℤ → ℤ → α) (i j : ℤ) : List α :=
  [r (i-1) (j-1), r (i-1) j, r (i-1) (j+1),
   r i (j-1), r i j, r i (j+1),
   r (i+1) (j-1), r (i+1) j, r (i+1) (j+1)]

/-- Smoothing step `apply_neighborhood` with the child process `median` and a 3×3 window. -/
def apply_neighborhood_median (r : ℤ → ℤ → α) (i j : ℤ) : α :=
  medianOfWindow (window3x3 r i j)

/-! ### Helper lemmas about the classifier -/

lemma sqrt_two_pi_pos : 0 < Real.sqrt (2 * Real.pi) :=
  Real.sqrt_pos.mpr (by positivity)

lemma nf_std_pos : 0 < nf_std := by norm_num [nf_std]

lemma f_prob_pos (sig0 std wbsc : ℝ) (h : 0 < std) : 0 < f_prob sig0 std wbsc := by
  unfold f_prob
  have := sqrt_two_pi_pos
  positivity

lemma nf_prob_pos (sig0 hbsc : ℝ) : 0 < nf_prob sig0 hbsc := by
  unfold nf_prob
  have := sqrt_two_pi_pos
  have := nf_std_pos
  positivity

lemma evidence_pos (sig0 std wbsc hbsc : ℝ) (h : 0 < std) :
    0 < evidence sig0 std wbsc hbsc := by
  unfold evidence
  have := f_prob_pos sig0 std wbsc h
  have := nf_prob_pos sig0 hbsc
  nlinarith

/-- With positive evidence the posterior comparison reduces to the
likelihood comparison. -/
lemma decision_iff_likelihood (sig0 std wbsc hbsc : ℝ)
    (he : 0 < evidence sig0 std wbsc hbsc) :
    bayesian_flood_decision sig0 std wbsc hbsc ↔
      nf_prob sig0 hbsc < f_prob sig0 std wbsc := by
  unfold bayesian_flood_decision f_post_prob nf_post_prob
  rw [gt_iff_lt, div_lt_div_iff_of_pos_right he]
  constructor <;> intro h <;> nlinarith

/-! ### Claims about the class likelihoods (C1, C2, C10) -/

/-- C1 (counterexample): the flood-class likelihood is NOT the normal
density with mean `wbsc` and scale `nf_std = 2.754041`: at
`sig0 = 0, std = 1, wbsc = 0` (with `std > 0`) the two differ. -/
theorem C1_counterexample : (0:ℝ) < 1 ∧ f_prob 0 1 0 ≠ normalPdf 0 nf_std 0 := by
  refine ⟨by norm_num, ?_⟩
  have hA : 0 < (Real.sqrt Real.pi)⁻¹ * (Real.sqrt 2)⁻¹ := by positivity
  unfold f_prob normalPdf nf_std
  norm_num
  intro heq
  nlinarith

/-- C1 (amended): for every pixel with `std > 0`, the flood-class
likelihood equals the normal density with mean `wbsc` and scale
`nf_std = 2.754041` evaluated at `sig0`, rescaled by `nf_std / std`:
the per-pixel `std` enters the flood-class density through its
normalization prefactor `1 / (std·sqrt(2π))`, while the exponent uses
the global constant. -/
theorem C1_f_prob_rescaled_normal (sig0 std wbsc : ℝ) (h : 0 < std) :
    f_prob sig0 std wbsc = normalPdf wbsc nf_std sig0 * (nf_std / std) := by
  have hs' : Real.sqrt (2 * Real.pi) ≠ 0 := ne_of_gt sqrt_two_pi_pos
  have hn' : nf_std ≠ 0 := ne_of_gt nf_std_pos
  have hstd : std ≠ 0 := ne_of_gt h
  unfold f_prob normalPdf
  have e1 : (1.0:ℝ) = 1 := by norm_num
  rw [e1]
  field_simp
  ring

/-- Witness for `C1_f_prob_rescaled_normal` at `sig0 = 0, std = 1, wbsc = 0`. -/
theorem C1_f_prob_rescaled_normal_witness :
    f_prob 0 1 0 = normalPdf 0 nf_std 0 * (nf_std / 1) :=
  C1_f_prob_rescaled_normal 0 1 0 (by norm_num)

/-- C2 (counterexample): the land-class likelihood does NOT use the
per-pixel `std` as its scale: at `sig0 = 0, hbsc = 0, std = 1` (with
`std > 0`) the code's `nf_prob` differs from the normal density with
mean `hbsc` and standard deviation `std`. -/
theorem C2_counterexample : (0:ℝ) < 1 ∧ nf_prob 0 0 ≠ normalPdf 0 1 0 := by
  refine ⟨by norm_num, ?_⟩
  have hA : 0 < (Real.sqrt Real.pi)⁻¹ * (Real.sqrt 2)⁻¹ := by positivity
  unfold nf_prob normalPdf nf_std
  norm_num
  intro heq
  nlinarith

/-- C2 (amended): for every pixel, the land-class likelihood equals the
normal density with mean `hbsc` and the GLOBAL scale constant
`nf_std = 2.754041` evaluated at `sig0`; the per-pixel `std` plays no
role in the land-class density. -/
theorem C2_nf_prob_global_normal (sig0 hbsc : ℝ) :
    nf_prob sig0 hbsc = normalPdf hbsc nf_std sig0 := by
  unfold nf_prob normalPdf
  norm_num

/-- C10: wherever the evidence is strictly positive, the posterior
comparison returned by the classifier is equivalent to the direct
likelihood comparison: the shared positive divisor and the equal `0.5`
priors never change the boolean flood decision. -/
theorem C10_posterior_iff_likelihood (sig0 std wbsc hbsc : ℝ)
    (he : 0 < evidence sig0 std wbsc hbsc) :
    f_post_prob sig0 std wbsc hbsc > nf_post_prob sig0 std wbsc hbsc ↔
      f_prob sig0 std wbsc > nf_prob sig0 hbsc :=
  decision_iff_likelihood sig0 std wbsc hbsc he

/-- Witness for `C10_posterior_iff_likelihood` at
`sig0 = 0, std = 1, wbsc = 0, hbsc = 0`. -/
theorem C10_posterior_iff_likelihood_witness :
    f_post_prob 0 1 0 0 > nf_post_prob 0 1 0 0 ↔ f_prob 0 1 0 > nf_prob 0 0 :=
  C10_posterior_iff_likelihood 0 1 0 0 (evidence_pos 0 1 0 0 (by norm_num))

/-! ### Helper lemmas about the mask cascade -/

/-- The all-zero pixel, produced by multiplying any pixel by a `0` mask. -/
def zeroPix : Pix α := ⟨0, 0, 0, 0, 0, 0⟩

lemma mulPix_one (p : Pix α) : mulPix p 1 = p := by
  simp [mulPix]

lemma mulPix_zero (p : Pix α) : mulPix p 0 = zeroPix := by
  simp [mulPix, zeroPix]

lemma zeroPix_mul (x : α) : mulPix zeroPix x = zeroPix := by
  simp [mulPix, zeroPix]

lemma applyMask_zeroPix (m : Pix α → Bool) : applyMask (zeroPix : Pix α) m = zeroPix := by
  simp [applyMask, zeroPix_mul]

/-- Two masking steps commute, whatever bands the two masks read: a
`true` mask leaves the cube unchanged and a `false` mask sends every
band to zero, which any further mask multiplication fixes. -/
lemma applyMask_comm (p : Pix α) (m₁ m₂ : Pix α → Bool) :
    applyMask (applyMask p m₁) m₂ = applyMask (applyMask p m₂) m₁ := by
  cases h1 : m₁ p <;> cases h2 : m₂ p <;>
    simp [applyMask, h1, h2, boolToNum, mulPix_one, mulPix_zero, zeroPix_mul]

/-! ### Claims about the mask cascade (C3, C4) -/

/-- C3 (counterexample): the outlier mask is NOT computed from the
pre-classification rasters: the code evaluates it on `flood_dc` after
the incidence-angle and conflict masks have been multiplied in.  At the
pixel `dec=1, sig0=100, std=1, wbsc=0, hbsc=0, PLIA=20` the angle mask
zeroes every band, after which the code's outlier mask is `true`
(`0 < wbsc + 3·2.754041` on the zeroed bands), while the outlier mask of
the pristine rasters is `false` (`sig0 = 100` is implausible under both
models). -/
theorem C3_counterexample :
    mask_outliers (flood_dc2 (⟨1, 100, 1, 0, 0, 20⟩ : Pix ℚ)) = true ∧
      mask_outliers (⟨1, 100, 1, 0, 0, 20⟩ : Pix ℚ) = false := by
  constructor <;>
    norm_num [mask_outliers, mask_land_outliers, mask_water_outliers, flood_dc2,
      flood_dc1, applyMask, mask_ia, mask_conflict, water_bsc_threshold,
      land_bsc_lower, land_bsc_upper, water_bsc_upper, mulPix, boolToNum]

/-- C3 (amended): the angle mask and (in the local pipeline) the
conflict mask read pre-classification bands, but the outlier and
decision-confidence masks read bands of the cube already multiplied by
the earlier masks; nevertheless the final cascaded raster equals the
cascade in which every mask is evaluated on the pre-classification
bands, because a mask can only differ on pixels some earlier mask has
already zeroed. -/
theorem C3_final_raster_as_pristine (p : Pix α) :
    flood_dc4 p =
      mulPix (mulPix (mulPix (mulPix p (boolToNum (mask_ia p)))
        (boolToNum (mask_conflict p))) (boolToNum (mask_outliers p)))
        (boolToNum (mask_uncertainty p)) := by
  cases h1 : mask_ia p <;> cases h2 : mask_conflict p <;>
    cases h3 : mask_outliers p <;> cases h4 : mask_uncertainty p <;>
      simp [flood_dc4, flood_dc3, flood_dc2, flood_dc1, applyMask, h1, h2, h3, h4,
        boolToNum, mulPix_one, mulPix_zero, zeroPix_mul]

/-- C4: the mask cascade is commutative: for every pixel, applying any
two of the four masks (incidence-angle, conflict, outlier,
decision-confidence) in either order yields the same raster. -/
theorem C4_mask_cascade_commutative (p : Pix α) (m₁ m₂ : Pix α → Bool)
    (h₁ : m₁ ∈ [mask_ia, mask_conflict, mask_outliers, mask_uncertainty])
    (h₂ : m₂ ∈ [mask_ia, mask_conflict, mask_outliers, mask_uncertainty]) :
    applyMask (applyMask p m₁) m₂ = applyMask (applyMask p m₂) m₁ :=
  applyMask_comm p m₁ m₂

/-- Witness for `C4_mask_cascade_commutative`: the angle and
decision-confidence masks commute at a concrete pixel. -/
theorem C4_mask_cascade_commutative_witness :
    applyMask (applyMask (⟨1, 1, 1, 1, 1, 30⟩ : Pix ℚ) mask_ia) mask_uncertainty =
      applyMask (applyMask (⟨1, 1, 1, 1, 1, 30⟩ : Pix ℚ) mask_uncertainty) mask_ia :=
  C4_mask_cascade_commutative ⟨1, 1, 1, 1, 1, 30⟩ mask_ia mask_uncertainty
    (by simp) (by simp)

/-! ### Claims about the harmonic model (C6, C7) -/

/-- C6: for every harmonic parameter set and date, the model output is
`M0 + S1·sin(wt) + C1·cos(wt) + S2·sin(2wt) + C2·cos(2wt) + S3·sin(3wt)
+ C3·cos(3wt)` with `w = 2π/365` and `t` the calendar day-of-year of the
date. -/
theorem C6_harmonic_formula (p : HParam) (y m d : ℕ) :
    harmonic_expected_backscatter p y m d =
      p.M0 + p.S1 * Real.sin (w * (dayOfYear y m d : ℝ))
        + p.C1 * Real.cos (w * (dayOfYear y m d : ℝ))
        + p.S2 * Real.sin (2 * (w * (dayOfYear y m d : ℝ)))
        + p.C2 * Real.cos (2 * (w * (dayOfYear y m d : ℝ)))
        + p.S3 * Real.sin (3 * (w * (dayOfYear y m d : ℝ)))
        + p.C3 * Real.cos (3 * (w * (dayOfYear y m d : ℝ))) := by
  unfold harmonic_expected_backscatter harmonic_model
  ring

/-- C7: the harmonic model is periodic with period 365 in the
day-of-year argument, exactly over real arithmetic. -/
theorem C7_harmonic_periodic (p : HParam) (t : ℝ) :
    harmonic_model p (t + 365) = harmonic_model p t := by
  have h365 : w * (t + 365) = w * t + 2 * Real.pi := by
    unfold w
    field_simp
    ring
  have hs1 : Real.sin (w * (t + 365)) = Real.sin (w * t) := by
    rw [h365, Real.sin_add_two_pi]
  have hc1 : Real.cos (w * (t + 365)) = Real.cos (w * t) := by
    rw [h365, Real.cos_add_two_pi]
  have e2 : 2 * (w * (t + 365)) = 2 * (w * t) + 2 * Real.pi + 2 * Real.pi := by
    rw [h365]; ring
  have hs2 : Real.sin (2 * (w * (t + 365))) = Real.sin (2 * (w * t)) := by
    rw [e2, Real.sin_add_two_pi, Real.sin_add_two_pi]
  have hc2 : Real.cos (2 * (w * (t + 365))) = Real.cos (2 * (w * t)) := by
    rw [e2, Real.cos_add_two_pi, Real.cos_add_two_pi]
  have e3 : 3 * (w * (t + 365)) =
      3 * (w * t) + 2 * Real.pi + 2 * Real.pi + 2 * Real.pi := by
    rw [h365]; ring
  have hs3 : Real.sin (3 * (w * (t + 365))) = Real.sin (3 * (w * t)) := by
    rw [e3, Real.sin_add_two_pi, Real.sin_add_two_pi, Real.sin_add_two_pi]
  have hc3 : Real.cos (3 * (w * (t + 365))) = Real.cos (3 * (w * t)) := by
    rw [e3, Real.cos_add_two_pi, Real.cos_add_two_pi, Real.cos_add_two_pi]
  unfold harmonic_model
  rw [hs1, hc1, hs2, hc2, hs3, hc3]

/-! ### The end-to-end uniform scenario (C5) -/

/-- C5 (counterexample): the water model at `PLIA = 30` does NOT yield
`-15.97745`: `30 · (-0.394181) + (-4.142015) = -15.967445`. -/
theorem C5_counterexample : water_backscatter (30 : ℚ) ≠ -15.97745 := by
  norm_num [water_backscatter]

/-- C5 (amended): in the uniform scenario `PLIA = 30`, `M0 = -10`,
`S1 = S2 = S3 = C1 = C2 = C3 = 0`, `std = 1`, `sig0 = -10` at date
`2018-02-01` (day-of-year 32): `wbsc = -15.967445`, `hbsc = -10`, the
classifier decides not-flooded, the angle, conflict and outlier masks
retain the pixel, the decision-confidence mask suppresses it, and the
final raster value is `0` (not flooded). -/
theorem C5_end_to_end_scenario :
    water_backscatter (30 : ℝ) = -15.967445
    ∧ dayOfYear 2018 2 1 = 32
    ∧ harmonic_expected_backscatter ⟨-10, 0, 0, 0, 0, 0, 0⟩ 2018 2 1 = -10
    ∧ ¬ bayesian_flood_decision (-10) 1 (-15.967445) (-10)
    ∧ mask_ia (⟨0, -10, 1, -15.967445, -10, 30⟩ : Pix ℚ) = true
    ∧ mask_conflict (⟨0, -10, 1, -15.967445, -10, 30⟩ : Pix ℚ) = true
    ∧ mask_outliers (⟨0, -10, 1, -15.967445, -10, 30⟩ : Pix ℚ) = true
    ∧ mask_uncertainty (⟨0, -10, 1, -15.967445, -10, 30⟩ : Pix ℚ) = false
    ∧ (flood_dc4 (⟨0, -10, 1, -15.967445, -10, 30⟩ : Pix ℚ)).dec = 0 := by
  refine ⟨by norm_num [water_backscatter], by decide, ?_, ?_, ?_, ?_, ?_, ?_, ?_⟩
  · unfold harmonic_expected_backscatter harmonic_model
    norm_num
  · have he : 0 < evidence (-10) 1 (-15.967445) (-10) :=
      evidence_pos _ _ _ _ (by norm_num)
    rw [bayesian_flood_decision, gt_iff_lt, ← not_le]
    intro hcon
    apply hcon
    unfold f_post_prob nf_post_prob
    rw [div_le_div_iff_of_pos_right he]
    have hs := sqrt_two_pi_pos
    have hlt : f_prob (-10) 1 (-15.967445) < nf_prob (-10) (-10) := by
      unfold f_prob nf_prob nf_std
      norm_num
      have hA : (0:ℝ) < (Real.sqrt Real.pi)⁻¹ * (Real.sqrt 2)⁻¹ := by positivity
      have hexp : Real.exp (-(35610399828025 / 15169483659362 : ℝ)) <
          1000000 / 2754041 := by
        have hq := Real.add_one_le_exp (35610399828025 / 15169483659362 : ℝ)
        have hgt : (2754041 / 1000000 : ℝ) < Real.exp
            (35610399828025 / 15169483659362 : ℝ) := by nlinarith
        rw [Real.exp_neg]
        calc (Real.exp (35610399828025 / 15169483659362 : ℝ))⁻¹
            < ((2754041 / 1000000 : ℝ))⁻¹ := inv_lt_inv_of_lt (by norm_num) hgt
          _ = 1000000 / 2754041 := by norm_num
      nlinarith [mul_lt_mul_of_pos_left hexp hA]
    nlinarith [hlt]
  · norm_num [mask_ia]
  · norm_num [mask_conflict, water_bsc_threshold]
  · norm_num [mask_outliers, mask_land_outliers, mask_water_outliers,
      land_bsc_lower, land_bsc_upper, water_bsc_upper]
  · norm_num [mask_uncertainty]
  · norm_num [flood_dc4, flood_dc3, flood_dc2, flood_dc1, applyMask, mulPix,
      boolToNum, mask_ia, mask_conflict, mask_outliers, mask_land_outliers,
      mask_water_outliers, mask_uncertainty, water_bsc_threshold,
      land_bsc_lower, land_bsc_upper, water_bsc_upper]

/-! ### Decisions at matching / far-apart means (C8) -/

lemma f_prob_center (std x : ℝ) :
    f_prob x std x = 1 / (std * Real.sqrt (2 * Real.pi)) := by
  unfold f_prob
  simp [sub_self, Real.exp_zero]
  norm_num

lemma nf_prob_center (x : ℝ) :
    nf_prob x x = 1 / (nf_std * Real.sqrt (2 * Real.pi)) := by
  unfold nf_prob
  simp [sub_self, Real.exp_zero]
  norm_num

lemma nf_prob_plus50 (x : ℝ) :
    nf_prob x (x + 50) =
      1 / (nf_std * Real.sqrt (2 * Real.pi))
        * (Real.exp (0.5 * (50 / nf_std) ^ 2))⁻¹ := by
  unfold nf_prob
  have h1 : ((x - (x + 50)) / nf_std) ^ 2 = (50 / nf_std) ^ 2 := by ring
  rw [h1, show (-0.5 : ℝ) * (50 / nf_std) ^ 2 = -(0.5 * (50 / nf_std) ^ 2) by ring,
    Real.exp_neg]
  norm_num

lemma f_prob_minus50 (std x : ℝ) :
    f_prob x std (x - 50) =
      1 / (std * Real.sqrt (2 * Real.pi))
        * (Real.exp (0.5 * (50 / nf_std) ^ 2))⁻¹ := by
  unfold f_prob
  have h1 : ((x - (x - 50)) / nf_std) ^ 2 = (50 / nf_std) ^ 2 := by ring
  rw [h1, show (-0.5 : ℝ) * (50 / nf_std) ^ 2 = -(0.5 * (50 / nf_std) ^ 2) by ring,
    Real.exp_neg]
  norm_num

/-- C8 (counterexample): the claim quantifies over every `std > 0`, but
for the (astronomically large, yet positive) per-pixel standard
deviation `std = nf_std · exp(0.5·(50/nf_std)²)` the code's flood-class
likelihood at `sig0 = wbsc = 0`, `hbsc = 50` exactly equals the
land-class likelihood, so the strict comparison returns not-flooded. -/
theorem C8_counterexample :
    0 < nf_std * Real.exp (0.5 * (50 / nf_std) ^ 2)
    ∧ ¬ bayesian_flood_decision 0 (nf_std * Real.exp (0.5 * (50 / nf_std) ^ 2)) 0 50 := by
  have he := Real.exp_pos (0.5 * (50 / nf_std) ^ 2)
  have hn := nf_std_pos
  have hs := sqrt_two_pi_pos
  refine ⟨by positivity, ?_⟩
  have hf : f_prob 0 (nf_std * Real.exp (0.5 * (50 / nf_std) ^ 2)) 0 =
      nf_prob 0 50 := by
    rw [f_prob_center, show (50:ℝ) = 0 + 50 by norm_num, nf_prob_plus50]
    field_simp
    ring
  unfold bayesian_flood_decision f_post_prob nf_post_prob
  rw [hf]
  exact lt_irrefl _

/-- C8 (amended): with `sig0 = wbsc` and `hbsc = wbsc + 50` the
classifier returns flooded for every `std` with
`0 < std < nf_std·exp(0.5·(50/nf_std)²)`; in the symmetric case
(`sig0 = hbsc`, `wbsc = hbsc − 50`) it returns not-flooded for every
`std ≥ nf_std·exp(−0.5·(50/nf_std)²)`.  The extra bounds on `std` are
required because the code's flood-class likelihood carries the
per-pixel `1/std` prefactor. -/
theorem C8_decision_far_means :
    (∀ sig0 std wbsc hbsc : ℝ, sig0 = wbsc → hbsc = wbsc + 50 → 0 < std →
        std < nf_std * Real.exp (0.5 * (50 / nf_std) ^ 2) →
        bayesian_flood_decision sig0 std wbsc hbsc)
    ∧ (∀ sig0 std wbsc hbsc : ℝ, sig0 = hbsc → wbsc = hbsc - 50 →
        nf_std * Real.exp (-(0.5 * (50 / nf_std) ^ 2)) ≤ std →
        ¬ bayesian_flood_decision sig0 std wbsc hbsc) := by
  have hn := nf_std_pos
  have hs := sqrt_two_pi_pos
  have he := Real.exp_pos (0.5 * (50 / nf_std) ^ 2)
  constructor
  · intro sig0 std wbsc hbsc h1 h2 hstd hub
    subst h1 h2
    rw [decision_iff_likelihood _ _ _ _ (evidence_pos _ _ _ _ hstd)]
    rw [nf_prob_plus50, f_prob_center]
    have e1 : 1 / (nf_std * Real.sqrt (2 * Real.pi))
        * (Real.exp (0.5 * (50 / nf_std) ^ 2))⁻¹ =
        1 / (nf_std * Real.sqrt (2 * Real.pi) * Real.exp (0.5 * (50 / nf_std) ^ 2)) := by
      field_simp
    rw [e1, div_lt_div_iff (by positivity) (by positivity)]
    nlinarith [mul_lt_mul_of_pos_right hub hs]
  · intro sig0 std wbsc hbsc h1 h2 hlb
    have hstd : 0 < std := lt_of_lt_of_le (by positivity) hlb
    subst h1 h2
    rw [decision_iff_likelihood _ _ _ _ (evidence_pos _ _ _ _ hstd), not_lt]
    rw [nf_prob_center, f_prob_minus50]
    have h3 : nf_std ≤ std * Real.exp (0.5 * (50 / nf_std) ^ 2) := by
      rw [Real.exp_neg] at hlb
      have h4 := mul_le_mul_of_nonneg_right hlb (le_of_lt he)
      rw [mul_assoc, inv_mul_cancel₀ (ne_of_gt he), mul_one] at h4
      exact h4
    have e1 : 1 / (std * Real.sqrt (2 * Real.pi))
        * (Real.exp (0.5 * (50 / nf_std) ^ 2))⁻¹ =
        1 / (std * Real.sqrt (2 * Real.pi) * Real.exp (0.5 * (50 / nf_std) ^ 2)) := by
      field_simp
    rw [e1, div_le_div_iff (by positivity) (by positivity)]
    nlinarith [mul_le_mul_of_nonneg_right h3 (le_of_lt hs)]

/-- Witness for `C8_decision_far_means` at `std = 1`: flooded when
`sig0 = wbsc = 0, hbsc = 50`, not flooded when `sig0 = hbsc = 0,
wbsc = -50`. -/
theorem C8_decision_far_means_witness :
    bayesian_flood_decision 0 1 0 50 ∧ ¬ bayesian_flood_decision 0 1 (-50) 0 := by
  constructor
  · apply C8_decision_far_means.1 0 1 0 50 rfl (by norm_num) (by norm_num)
    have hq := Real.add_one_le_exp (0.5 * (50 / nf_std) ^ 2)
    have hK : 0 ≤ 0.5 * (50 / nf_std) ^ 2 := by positivity
    have h1 : (1:ℝ) < nf_std := by norm_num [nf_std]
    nlinarith
  · apply C8_decision_far_means.2 0 1 (-50) 0 rfl (by norm_num)
    rw [Real.exp_neg, ← div_eq_mul_inv, div_le_one (Real.exp_pos _)]
    have hq := Real.add_one_le_exp (0.5 * (50 / nf_std) ^ 2)
    have h2 : nf_std ≤ 0.5 * (50 / nf_std) ^ 2 + 1 := by norm_num [nf_std]
    linarith

/-! ### Claims about the smoothing filter (C9) -/

lemma insertSorted_replicate (c : α) (n : ℕ) :
    insertSorted c (List.replicate n c) = List.replicate (n + 1) c := by
  cases n with
  | zero => rfl
  | succ n => simp [List.replicate_succ, insertSorted, le_refl]

lemma sortList_replicate (c : α) (n : ℕ) :
    sortList (List.replicate n c) = List.replicate n c := by
  induction n with
  | zero => rfl
  | succ n ih => simp [List.replicate_succ, sortList, ih, insertSorted_replicate]

lemma medianOfWindow_replicate (c : α) :
    medianOfWindow (List.replicate 9 c) = c := by
  rw [medianOfWindow, sortList_replicate]
  rfl

/-- C9: the 3×3 median smoothing filter turns a single non-flood pixel
whose 8 spatial neighbors are all flooded into a flooded pixel, and
leaves every constant-valued raster unchanged. -/
theorem C9_median_smoothing :
    (∀ (r : ℤ → ℤ → ℚ) (i j : ℤ),
        r (i-1) (j-1) = 1 → r (i-1) j = 1 → r (i-1) (j+1) = 1 →
        r i (j-1) = 1 → r i j = 0 → r i (j+1) = 1 →
        r (i+1) (j-1) = 1 → r (i+1) j = 1 → r (i+1) (j+1) = 1 →
        apply_neighborhood_median r i j = 1)
    ∧ (∀ (c : ℚ) (r : ℤ → ℤ → ℚ), (∀ i j, r i j = c) →
        ∀ i j, apply_neighborhood_median r i j = c) := by
  constructor
  · intro r i j h1 h2 h3 h4 h5 h6 h7 h8 h9
    unfold apply_neighborhood_median window3x3
    rw [h1, h2, h3, h4, h5, h6, h7, h8, h9]
    decide
  · intro c r hr i j
    unfold apply_neighborhood_median
    have hwin : window3x3 r i j = List.replicate 9 c := by
      simp [window3x3, hr, List.replicate_succ]
    rw [hwin, medianOfWindow_replicate]

/-- Witness for `C9_median_smoothing`: a concrete raster with an
isolated zero pixel at the origin becomes `1` there, and the constant-5
raster is unchanged at the origin. -/
theorem C9_median_smoothing_witness :
    apply_neighborhood_median (fun a b => if a = 0 ∧ b = 0 then (0:ℚ) else 1) 0 0 = 1
    ∧ apply_neighborhood_median (fun _ _ => (5:ℚ)) 0 0 = 5 := by
  constructor
  · exact C9_median_smoothing.1 (fun a b => if a = 0 ∧ b = 0 then (0:ℚ) else 1) 0 0
      (by norm_num) (by norm_num) (by norm_num) (by norm_num) (by norm_num)
      (by norm_num) (by norm_num) (by norm_num) (by norm_num)
  · exact C9_median_smoothing.2 5 (fun _ _ => (5:ℚ)) (fun _ _ => rfl) 0 0
